import Mathlib

/-!
Verification of the read/write core of the `volkswagencarnet` client
(`vw_vehicle.py`, `utilities.py`): the path query engine, the capability
discovery merge, the action-request ledger and state machine, and the
update orchestrator.  Python dictionaries are embedded as association
lists that keep insertion order; Python exceptions become explicit
error values; `asyncio` coroutines become pure functions over an
explicit backend oracle.
-/

namespace VW

/-- A Python value as the nested documents use them: `None`, booleans,
integers, strings, sequences and string-keyed mappings. -/
inductive Value where
  | null : Value
  | bool (b : Bool) : Value
  | int (n : Int) : Value
  | str (s : String) : Value
  | arr (xs : List Value) : Value
  | obj (fields : List (String × Value)) : Value

/-- Python truthiness of a `Value` (`None`, `False`, `0`, `""` and empty
containers are falsy). -/
def pyTruthy : Value → Bool
  | Value.null => false
  | Value.bool b => b
  | Value.int n => n != 0
  | Value.str s => s != ""
  | Value.arr xs => !xs.isEmpty
  | Value.obj fields => !fields.isEmpty

/-- First-match lookup in an association list, as Python `dict.__getitem__`
on a dict with unique keys. -/
def lookupKey {α : Type} : List (String × α) → String → Option α
  | [], _ => none
  | (k, v) :: rest, key => if k = key then some v else lookupKey rest key

/-- Whether the association list holds the key, as Python `in dict`. -/
def containsKey {α : Type} (l : List (String × α)) (key : String) : Bool :=
  (lookupKey l key).isSome

/-- `dict[key] = v`: replace the first binding of `key` in place (keeping
its position, as CPython dicts do) or append a new binding at the end. -/
def setKey {α : Type} : List (String × α) → String → α → List (String × α)
  | [], key, v => [(key, v)]
  | (k, w) :: rest, key, v =>
    if k = key then (key, v) :: rest else (k, w) :: setKey rest key v

/-- `dict.update(upd)`: fold `setKey` over the entries of `upd`. -/
def dictUpdate {α : Type} (d upd : List (String × α)) : List (String × α) :=
  upd.foldl (fun acc kv => setKey acc kv.1 kv.2) d

/-- The errors `find_path` can raise: `KeyError(key)` when an intermediate
segment is absent from a mapping, `TypeError` when subscripting a
non-mapping value with a string segment. -/
inductive PathError where
  | keyError (key : String) : PathError
  | typeError : PathError
  deriving Repr, DecidableEq

/-- `str.split(".")` on the characters of a non-empty path: every dot
separates segments, adjacent dots yield empty segments. -/
def splitOnDot : List Char → List (List Char)
  | [] => [[]]
  | c :: rest =>
    let r := splitOnDot rest
    if c = '.' then [] :: r
    else
      match r with
      | [] => [[c]]
      | seg :: segs => (c :: seg) :: segs

/-- The segment list `find_path` recurses over: an empty (falsy) path is
the empty list, otherwise `path.split(".")`. -/
def splitPath (path : String) : List String :=
  if path = "" then [] else (splitOnDot path.data).map (fun seg => String.mk seg)

/-- The recursion of `utilities.find_path` after the path string has been
split: return `src` on the empty path, otherwise subscript with the head
segment (`KeyError` if a mapping lacks it, `TypeError` if `src` is not a
mapping) and recurse on the tail. -/
def find_path_segs : Value → List String → Except PathError Value
  | src, [] => Except.ok src
  | src, key :: rest =>
    match src with
    | Value.obj fields =>
      match lookupKey fields key with
      | some v => find_path_segs v rest
      | none => Except.error (PathError.keyError key)
    | _ => Except.error PathError.typeError

/-- `utilities.find_path(src, path)` for a string path: an empty (falsy)
path returns `src` itself, otherwise the path is split on dots and the
segments are resolved left to right. -/
def find_path (src : Value) (path : String) : Except PathError Value :=
  find_path_segs src (splitPath path)

/-- `utilities.is_valid_path(src, path)`: runs `find_path` and catches
exactly `KeyError` (`True` on success, `False` on `KeyError`); any other
exception — in particular `TypeError` — propagates to the caller. -/
def is_valid_path (src : Value) (path : String) : Except PathError Bool :=
  match find_path src path with
  | Except.ok _ => Except.ok true
  | Except.error (PathError.keyError _) => Except.ok false
  | Except.error PathError.typeError => Except.error PathError.typeError

/-- One entry of the per-topic request ledger `Vehicle._requests[topic]`:
a dict whose keys `status`, `timestamp` and `id` may each be absent.
`id` values are modelled as integers (`0` is the falsy placeholder the
code stores when a response carries no id). -/
structure RequestRecord where
  status : String
  timestamp : Option Int
  id : Option Int
  deriving Repr, DecidableEq

/-- `Vehicle._requests`: the topic-keyed records plus the ancillary
`remaining`, `latest` and `state` fields.  Timestamps are integers in
seconds. -/
structure Requests where
  records : List (String × RequestRecord)
  remaining : Int
  latest : String
  state : String
  deriving Repr, DecidableEq

/-- The ledger as `Vehicle.__init__` builds it: six topics with empty
status, a creation timestamp and no id; `remaining = -1`. -/
def initialRequests (now : Int) : Requests :=
  { records :=
      [ ("departuretimer", { status := "", timestamp := some now, id := none }),
        ("batterycharge", { status := "", timestamp := some now, id := none }),
        ("climatisation", { status := "", timestamp := some now, id := none }),
        ("refresh", { status := "", timestamp := some now, id := none }),
        ("lock", { status := "", timestamp := some now, id := none }),
        ("preheater", { status := "", timestamp := some now, id := none }) ],
    remaining := -1,
    latest := "",
    state := "" }

/-- Truthiness of the `id` field fetched with `.get("id", False)`:
an absent key is falsy, and so is the stored integer `0`. -/
def idTruthy : Option Int → Bool
  | none => false
  | some n => n != 0

/-- `Vehicle._in_progress(topic, unknown_offset)`.  Time is in seconds
(`timedelta(minutes=3)` is 180, the offset is `unknown_offset * 60`).
Returns the boolean result together with the possibly-mutated ledger
(a stale pending id is popped from the topic's record). -/
def in_progress (rs : Requests) (topic : String) (now : Int) (unknown_offset : Int) :
    Bool × Requests :=
  match lookupKey rs.records topic with
  | none => (false, rs)
  | some r =>
    if idTruthy r.id then
      let timestamp := r.timestamp.getD (now - unknown_offset * 60)
      if timestamp + 180 < now then
        (false, { rs with records := setKey rs.records topic { r with id := none } })
      else (true, rs)
    else (false, rs)

/-- `Vehicle.wait_for_request(request, retry_count)`, driven by a backend
oracle `getStatus request attempt` standing for
`Connection.get_request_status` (an `Except.error` oracle reply models
that call raising).  A result `Except.ok (status, queries)` is a normal
return with the total count of status queries made; `Except.error
queries` is the frame raising.  The budget-exhaustion branch never
reaches its `return "Timeout"`: the log line before it evaluates
`request.requestId` on the plain response id (an int), which raises
`AttributeError` — caught one recursion frame up by the `except` that
wraps the recursive call, turning it into a normal `"Exception"` return;
it escapes to the caller only when the exhausted frame is the outermost
one.  The Python decrement precedes the zero test, so the embedding is
faithful for every positive budget (the only budget the code uses is the
default 18; a non-positive budget would never hit the zero test in
Python). -/
def wait_for_request (getStatus : Int → Nat → Except Unit String) (request : Int) :
    Nat → Nat → Except Nat (String × Nat)
  | 0, queries => Except.error queries
  | 1, queries => Except.error queries
  | n + 2, queries =>
    match getStatus request queries with
    | Except.error _ => Except.ok ("Exception", queries + 1)
    | Except.ok status =>
      if status = "In Progress" then
        match wait_for_request getStatus request (n + 1) (queries + 1) with
        | Except.ok v => Except.ok v
        | Except.error q => Except.ok ("Exception", q)
      else Except.ok (status, queries + 1)

/-- The terminal status `_handle_response` obtains from
`await self.wait_for_request(request=response.get("id", 0))`: at the
fixed default budget of 18 the recursion always returns a status
normally (`wait_for_request_returns` below), so the raising branch here
is unreachable. -/
def pollStatus (getStatus : Int → Nat → Except Unit String) (request : Int) : String :=
  match wait_for_request getStatus request 18 0 with
  | Except.ok v => v.1
  | Except.error _ => "Exception"

/-- A truthy submission response: the optional `rate_limit_remaining`,
`state` and `id` fields the code reads with `.get`. -/
structure Response where
  rate_limit_remaining : Option Int
  state : Option String
  id : Option Int
  deriving Repr, DecidableEq

/-- Result of `Vehicle._handle_response`: the updated ledger, whether the
polling loop (`wait_for_request`) was invoked, and whether the call
raised (a falsy response) instead of returning `True`. -/
structure HandleOutcome where
  rs : Requests
  polled : Bool
  raised : Bool
  deriving Repr, DecidableEq

/-- `Vehicle._handle_response(response, topic)`: a falsy response records
`Failed` and raises; otherwise a provided non-sentinel
`rate_limit_remaining` updates the shared counter, the record is staged
with the response's state and id, and the final status is `Throttled`
(without polling) when the response state is `"Throttled"`, else the
result of `wait_for_request` on the response id; the final record drops
the id. -/
def handle_response (rs : Requests) (topic : String) (response : Option Response) (now : Int)
    (getStatus : Int → Nat → Except Unit String) : HandleOutcome :=
  match response with
  | none =>
    let failRec : RequestRecord := { status := "Failed", timestamp := some now, id := none }
    { rs := { rs with records := setKey rs.records topic failRec },
      polled := false, raised := true }
  | some resp =>
    let remaining := resp.rate_limit_remaining.getD (-1)
    let rs1 := if remaining = -1 then rs else { rs with remaining := remaining }
    let reqId := resp.id.getD 0
    let stagedRec : RequestRecord :=
      { status := resp.state.getD "Unknown", timestamp := some now, id := some reqId }
    let rs2 := { rs1 with records := setKey rs1.records topic stagedRec }
    if resp.state = some "Throttled" then
      let thrRec : RequestRecord := { status := "Throttled", timestamp := some now, id := none }
      { rs := { rs2 with records := setKey rs2.records topic thrRec },
        polled := false, raised := false }
    else
      let status := pollStatus getStatus reqId
      let finalRec : RequestRecord := { status := status, timestamp := some now, id := none }
      { rs := { rs2 with records := setKey rs2.records topic finalRec },
        polled := true, raised := false }

/-- How a control-action coroutine ends: a normal return or a raised
exception. -/
inductive CallResult where
  | ret (b : Bool) : CallResult
  | raised : CallResult
  deriving Repr, DecidableEq

/-- Result of `Vehicle.set_lock`: final ledger, call result, and whether
the polling loop ran. -/
structure SetLockOutcome where
  rs : Requests
  result : CallResult
  polled : Bool
  deriving Repr, DecidableEq

/-- `Vehicle.set_lock(action, spin)`.  `accessActive` is the capability
gate `self._services[Services.ACCESS]["active"]`; `submit` is the result
of `Connection.setLock` (`Except.error` models the call raising, `ok
none` a falsy response).  An unsupported service or invalid action
raises before any backend call; an in-progress duplicate returns
`False`; a raising submission or falsy response records failure on
`access`/`lock` and raises `"Lock action failed"`; a truthy response is
delegated to `handle_response` on topic `"access"` and its `True` is
returned. -/
def set_lock (rs : Requests) (accessActive : Bool) (action : String) (now : Int)
    (submit : Except Unit (Option Response)) (getStatus : Int → Nat → Except Unit String) :
    SetLockOutcome :=
  if accessActive = false then { rs := rs, result := CallResult.raised, polled := false }
  else
    match in_progress rs "lock" now (-5) with
    | (true, rs1) => { rs := rs1, result := CallResult.ret false, polled := false }
    | (false, rs1) =>
      if action = "lock" ∨ action = "unlock" then
        let rs2 := { rs1 with latest := "Lock" }
        let excRec : RequestRecord := { status := "Exception", timestamp := some now, id := none }
        match submit with
        | Except.error _ =>
          { rs := { rs2 with records := setKey rs2.records "lock" excRec },
            result := CallResult.raised, polled := false }
        | Except.ok response =>
          let out := handle_response rs2 "access" response now getStatus
          if out.raised then
            { rs := { out.rs with records := setKey out.rs.records "lock" excRec },
              result := CallResult.raised, polled := out.polled }
          else { rs := out.rs, result := CallResult.ret true, polled := out.polled }
      else { rs := rs1, result := CallResult.raised, polled := false }

/-- `Vehicle.lock_action_status`:
`self._requests.get("lock", {}).get("status", "None")`. -/
def lock_action_status (rs : Requests) : String :=
  match lookupKey rs.records "lock" with
  | some r => r.status
  | none => "None"

/-- One entry of `Vehicle._services`: a per-service dict whose keys
`active`, `expiration`, `operations` and `parameters` may each be absent
(`none`).  `operations` is the list of `operation.get("id", None)`
values; `parameters` holds opaque parameter descriptors. -/
structure ServiceInfo where
  active : Option Bool
  expiration : Option String
  operations : Option (List (Option String))
  parameters : Option (List String)
  deriving Repr, DecidableEq

/-- The empty service dict `{}`. -/
def ServiceInfo.empty : ServiceInfo :=
  { active := none, expiration := none, operations := none, parameters := none }

/-- One per-service entry of the backend capability listing: the fields
`Vehicle.discover` reads with `.get`.  `operations` is the backend's
`operationId -> operation` mapping reduced to each operation's optional
`id` field; an empty mapping is falsy, matching the code's truthiness
test. -/
structure CapabilityEntry where
  id : Option String
  isEnabled : Bool
  status : Option String
  expirationDate : Option String
  operations : List (String × Option String)
  parameters : List String
  deriving Repr, DecidableEq

/-- The `data` dict `Vehicle.discover` builds for one service: for an
enabled service `active=True` plus the optional expiration (only when
the `expirationDate` field is truthy), flattened operation ids (only
when `operations` is truthy) and parameters (only when truthy); for a
disabled service only `active=False`. -/
def capData (service : CapabilityEntry) : ServiceInfo :=
  if service.isEnabled then
    { active := some true,
      expiration :=
        match service.expirationDate with
        | some s => if s != "" then some s else none
        | none => none,
      operations :=
        if service.operations.isEmpty then none
        else some (service.operations.map (fun op => op.2)),
      parameters :=
        if service.parameters.isEmpty then none else some service.parameters }
  else
    { active := some false, expiration := none, operations := none, parameters := none }

/-- `dict.update(data)` on a service dict: every key present in `data`
overwrites the old value, absent keys are untouched. -/
def updateInfo (old new : ServiceInfo) : ServiceInfo :=
  { active := match new.active with | some v => some v | none => old.active,
    expiration := match new.expiration with | some v => some v | none => old.expiration,
    operations := match new.operations with | some v => some v | none => old.operations,
    parameters := match new.parameters with | some v => some v | none => old.parameters }

/-- One iteration of the capability loop in `Vehicle.discover`: a listing
key outside the fixed service enumeration is ignored; otherwise the
entry's own `id` field names the service dict to update, and a missing
or unknown `id` raises `KeyError`, which the per-item handler catches
and skips. -/
def discoverStep (services : List (String × ServiceInfo)) (item : String × CapabilityEntry) :
    List (String × ServiceInfo) :=
  if containsKey services item.1 then
    match item.2.id with
    | some name =>
      match lookupKey services name with
      | some old => setKey services name (updateInfo old (capData item.2))
      | none => services
    | none => services
  else services

/-- The capability-listing loop of `Vehicle.discover` over the services
map.  (The flat parameter bag merged into the `PARAMETERS` pseudo-service
and the final `self._discovered = True` flag are orthogonal to the
capability entries and not modelled here.) -/
def discover (services : List (String × ServiceInfo))
    (capabilities : List (String × CapabilityEntry)) : List (String × ServiceInfo) :=
  capabilities.foldl discoverStep services

/-- The activity check used throughout the code:
`self._services.get(service, {}).get("active", False)`. -/
def isActive (services : List (String × ServiceInfo)) (service : String) : Bool :=
  match lookupKey services service with
  | some info => info.active.getD false
  | none => false

/-- How `Vehicle.set_climatisation_temp` proceeds: raise for a missing
climate capability, raise for an out-of-range temperature, or reach the
backend submission with the payload's target temperature and
`climatisationWithoutExternalPower` flag. -/
inductive ClimTempOutcome where
  | raisedNoSupport : ClimTempOutcome
  | raisedInvalidTemp : ClimTempOutcome
  | submitted (targetTemperature : Rat) (withoutExternalPower : Bool) : ClimTempOutcome
  deriving Repr, DecidableEq

/-- The validation prefix of `Vehicle.set_climatisation_temp(temperature)`:
`supported` is `is_electric_climatisation_supported or
is_auxiliary_climatisation_supported`, `cwep` the vehicle's
`climatisation_without_external_power` flag read for the payload.
Temperatures are rationals (the Python floats 15.5 and 30 are exact).
`submitted` marks reaching the `setClimaterSettings` call, whose response
handling mirrors `handle_response`. -/
def set_climatisation_temp (supported : Bool) (cwep : Bool) (temperature : Rat) :
    ClimTempOutcome :=
  if supported then
    if 15.5 ≤ temperature ∧ temperature ≤ 30 then ClimTempOutcome.submitted temperature cwep
    else ClimTempOutcome.raisedInvalidTemp
  else ClimTempOutcome.raisedNoSupport

/-- The vehicle's nested state document `Vehicle._states`: a top-level
dict of sections. -/
abbrev Doc := List (String × Value)

/-- The outcome of one fetch coroutine's backend call: `Except.error`
models the call raising, `ok none` a falsy (no-data) reply, `ok (some d)`
a document fragment to merge. -/
abbrev FetchReply := Except Unit (Option Doc)

/-- The body shared by `get_selectivestatus`, `get_vehicle`,
`get_parkingposition` and `get_trip_last`: on data, merge it into the
state document with `dict.update`; on a falsy reply leave the document
alone; a raising call leaves the document alone and reports the error.
Returns the new document and whether the coroutine raised. -/
def applyFetch (states : Doc) (r : FetchReply) : Doc × Bool :=
  match r with
  | Except.error _ => (states, true)
  | Except.ok none => (states, false)
  | Except.ok (some d) => (dictUpdate states d, false)

/-- The backend replies consumed by one `Vehicle.update` cycle. -/
structure FetchResults where
  selective : FetchReply
  vehicleData : FetchReply
  parking : FetchReply
  tripLast : FetchReply
  serviceStatus : Except Unit (Option Value)

/-- Modelled from the spec: the service identifier `Services.SERVICE_STATUS`
(the `vw_const` enumeration is outside the provided sources); the state
document key under which `get_service_status` stores its data.  Its
concrete spelling is irrelevant to every claim. -/
def SERVICE_STATUS : String := "serviceStatus"

/-- The `asyncio.gather` batch inside `Vehicle.update`: the four fetches
(selective status, vehicle masterdata, parking position gated on the
parking capability, last trip gated on the trip-statistics capability)
each run to completion and merge their own reply into the state document
— `gather` without `return_exceptions` re-raises the first child error
only after every child has run, and does not cancel the siblings.
Returns the merged document and whether any child raised. -/
def gatherFetches (states : Doc) (parkingActive tripActive : Bool) (f : FetchResults) :
    Doc × Bool :=
  let r1 := applyFetch states f.selective
  let r2 := applyFetch r1.1 f.vehicleData
  let r3 := if parkingActive then applyFetch r2.1 f.parking else (r2.1, false)
  let r4 := if tripActive then applyFetch r3.1 f.tripLast else (r3.1, false)
  (r4.1, r1.2 || r2.2 || r3.2 || r4.2)

/-- `Vehicle.deactivated` as a truth value:
`self.attrs.get("carData", {}).get("deactivated", None)` is truthy.
(A present non-mapping `carData` would make the Python attribute raise;
the documents the backend delivers keep it a mapping.) -/
def isDeactivated (states : Doc) : Bool :=
  match lookupKey states "carData" with
  | some (Value.obj fields) =>
    match lookupKey fields "deactivated" with
    | some v => pyTruthy v
    | none => false
  | _ => false

/-- Result of one `Vehicle.update` cycle: the state document and whether
the call raised. -/
structure UpdateOutcome where
  states : Doc
  raised : Bool

/-- `Vehicle.update` for a discovered vehicle: skip everything when the
vehicle is deactivated; otherwise run the gathered fetch batch, and —
only when no child raised — fetch the service status and merge it under
`SERVICE_STATUS`. -/
def update (states : Doc) (parkingActive tripActive : Bool) (f : FetchResults) :
    UpdateOutcome :=
  if isDeactivated states then { states := states, raised := false }
  else
    let r := gatherFetches states parkingActive tripActive f
    if r.2 then { states := r.1, raised := true }
    else
      match f.serviceStatus with
      | Except.error _ => { states := r.1, raised := true }
      | Except.ok none => { states := r.1, raised := false }
      | Except.ok (some v) => { states := setKey r.1 SERVICE_STATUS v, raised := false }

/-- Concrete fetch replies used by the C2 witness. -/
def c2_fetches : FetchResults :=
  { selective := Except.ok (some [("access", Value.obj [])]),
    vehicleData := Except.ok none,
    parking := Except.ok none,
    tripLast := Except.ok none,
    serviceStatus := Except.ok none }

end VW

/-! ## Association-list lemmas -/

namespace VW

theorem lookupKey_setKey_self {α : Type} (l : List (String × α)) (key : String) (v : α) :
    lookupKey (setKey l key v) key = some v := by
  induction l with
  | nil => simp [setKey, lookupKey]
  | cons kv rest ih =>
    obtain ⟨k, w⟩ := kv
    by_cases h : k = key
    · simp [setKey, h, lookupKey]
    · simp [setKey, h, lookupKey, ih]

theorem lookupKey_setKey_ne {α : Type} (l : List (String × α)) (key k : String) (v : α)
    (h : k ≠ key) : lookupKey (setKey l key v) k = lookupKey l k := by
  have hne : ¬ key = k := fun hh => h hh.symm
  induction l with
  | nil =>
    simp only [setKey, lookupKey]
    rw [if_neg hne]
  | cons kv rest ih =>
    obtain ⟨k', w⟩ := kv
    by_cases hk : k' = key
    · subst hk
      simp only [setKey, if_pos rfl, lookupKey]
      rw [if_neg hne, if_neg hne]
    · simp only [setKey, if_neg hk, lookupKey]
      by_cases hk2 : k' = k
      · simp [hk2]
      · simp [hk2, ih]

theorem containsKey_setKey {α : Type} (l : List (String × α)) (key k : String) (v : α)
    (h : containsKey l key = true) : containsKey (setKey l key v) k = containsKey l k := by
  by_cases hk : k = key
  · subst hk
    simp only [containsKey, lookupKey_setKey_self, Option.isSome_some]
    exact h.symm
  · simp [containsKey, lookupKey_setKey_ne l key k v hk]

end VW

/-! ## C1: the polling retry budget -/

namespace VW

/-- One-step unfolding of `wait_for_request` for a budget of at least
two, used to avoid unfolding the recursion further than one frame. -/
theorem wait_for_request_step (g : Int → Nat → Except Unit String) (r : Int) (n q : Nat) :
    wait_for_request g r (n + 2) q =
      match g r q with
      | Except.error _ => Except.ok ("Exception", q + 1)
      | Except.ok status =>
        if status = "In Progress" then
          match wait_for_request g r (n + 1) (q + 1) with
          | Except.ok v => Except.ok v
          | Except.error q2 => Except.ok ("Exception", q2)
        else Except.ok (status, q + 1) := rfl

/-- A budget of at least 2 always returns normally: the only raising
frame is the exhausted one, and every frame above it catches the raise
of its recursive call.  This is why the raising branch of `pollStatus`
is unreachable at the fixed budget 18. -/
theorem wait_for_request_returns (g : Int → Nat → Except Unit String) (r : Int) :
    ∀ n q, ∃ v, wait_for_request g r (n + 2) q = Except.ok v := by
  intro n
  induction n with
  | zero =>
    intro q
    cases hgs : g r q with
    | error e =>
      exact ⟨("Exception", q + 1), by rw [wait_for_request_step, hgs]⟩
    | ok s =>
      by_cases hs : s = "In Progress"
      · subst hs
        exact ⟨("Exception", q + 1), by rw [wait_for_request_step, hgs]; simp [wait_for_request]⟩
      · exact ⟨(s, q + 1), by rw [wait_for_request_step, hgs]; simp [hs]⟩
  | succ m ih =>
    intro q
    cases hgs : g r q with
    | error e =>
      exact ⟨("Exception", q + 1), by rw [wait_for_request_step, hgs]⟩
    | ok s =>
      by_cases hs : s = "In Progress"
      · subst hs
        obtain ⟨v, hv⟩ := ih (q + 1)
        have hv2 : wait_for_request g r (m + 1 + 1) (q + 1) = Except.ok v := hv
        exact ⟨v, by rw [wait_for_request_step, hgs]; simp [hv2]⟩
      · exact ⟨(s, q + 1), by rw [wait_for_request_step, hgs]; simp [hs]⟩

/-- With a backend that always answers `"In Progress"`, a budget of
`n + 2` makes exactly `n + 1` status queries and ends in a normal
`"Exception"` return: the exhausted frame's log line raises
`AttributeError` on the plain id before its `return "Timeout"`, and the
frame above catches it. -/
theorem wait_always_in_progress (g : Int → Nat → Except Unit String) (r : Int)
    (h : ∀ q, g r q = Except.ok "In Progress") :
    ∀ n q, wait_for_request g r (n + 2) q = Except.ok ("Exception", q + n + 1) := by
  intro n
  induction n with
  | zero =>
    intro q
    have hq := h q
    rw [wait_for_request_step, hq]
    simp [wait_for_request]
  | succ m ih =>
    intro q
    have hq := h q
    have ih2 : wait_for_request g r (m + 1 + 1) (q + 1) =
        Except.ok ("Exception", q + 1 + m + 1) := ih (q + 1)
    rw [wait_for_request_step, hq]
    simp only [if_true, ih2]
    refine congrArg Except.ok (congrArg (Prod.mk "Exception") ?_)
    omega

/-- C1, as stated, is false: an always-`"In Progress"` backend makes
`wait_for_request` (budget 18) terminate with `("Exception", 17)` — 17
status queries, and status `"Exception"` rather than `"Timeout"`,
because the exhaustion branch's log line raises `AttributeError` on the
plain id and the parent frame's `except` absorbs it. -/
theorem c1_polling_budget_counterexample :
    wait_for_request (fun _ _ => (Except.ok "In Progress" : Except Unit String)) 0 18 0 =
      Except.ok ("Exception", 17) ∧
    ¬ wait_for_request (fun _ _ => (Except.ok "In Progress" : Except Unit String)) 0 18 0 =
      Except.ok ("Timeout", 18) := by
  constructor
  · rfl
  · intro hcontra
    rw [show wait_for_request
        (fun _ _ => (Except.ok "In Progress" : Except Unit String)) 0 18 0 =
        Except.ok ("Exception", 17) from rfl] at hcontra
    simp at hcontra

/-- C1 amended: for every action identifier, a backend reporting
`"In Progress"` on every query makes `wait_for_request` with its default
budget of 18 terminate after exactly 17 status queries with the status
`"Exception"` — not `"Timeout"`, whose return statement is dead code
behind the raising log line. -/
theorem c1_polling_budget_exception_17 (g : Int → Nat → Except Unit String) (request : Int)
    (h : ∀ q, g request q = Except.ok "In Progress") :
    wait_for_request g request 18 0 = Except.ok ("Exception", 17) := by
  have h18 := wait_always_in_progress g request h 16 0
  simpa using h18

/-- Witness for C1 amended at a concrete oracle and request id. -/
theorem c1_polling_budget_exception_17_witness :
    wait_for_request (fun _ _ => (Except.ok "In Progress" : Except Unit String)) 7 18 0 =
      Except.ok ("Exception", 17) :=
  c1_polling_budget_exception_17 (fun _ _ => (Except.ok "In Progress" : Except Unit String)) 7
    (fun _ => rfl)

end VW

/-! ## C6 and C10: existence testing over the path engine -/

namespace VW

/-- C6, as stated, is false: on document `{x: 5}` and path `"x.y"`,
`find_path` fails with a `TypeError` — not a missing-key error — and
`is_valid_path` does not return `True`: it propagates the `TypeError`. -/
theorem c6_exists_counterexample :
    find_path (Value.obj [("x", Value.int 5)]) "x.y" = Except.error PathError.typeError ∧
    (∀ k, ¬ find_path (Value.obj [("x", Value.int 5)]) "x.y" =
      Except.error (PathError.keyError k)) ∧
    ¬ is_valid_path (Value.obj [("x", Value.int 5)]) "x.y" = Except.ok true := by
  refine ⟨rfl, ?_, ?_⟩
  · intro k hk
    rw [show find_path (Value.obj [("x", Value.int 5)]) "x.y" =
      Except.error PathError.typeError from rfl] at hk
    injection hk with hk2
    cases hk2
  · intro hv
    rw [show is_valid_path (Value.obj [("x", Value.int 5)]) "x.y" =
      Except.error PathError.typeError from rfl] at hv
    cases hv

/-- C6 amended: `is_valid_path` returns `True` whenever `find_path`
succeeds with a value — including an explicit null — and returns `False`
exactly on a missing-key error; a `TypeError` is not caught and
propagates. -/
theorem c6_exists_of_get_ok (src : Value) (path : String) (v : Value)
    (h : find_path src path = Except.ok v) :
    is_valid_path src path = Except.ok true := by
  unfold is_valid_path
  rw [h]

/-- Witness for C6 amended: a path resolving to an explicit null counts
as existing. -/
theorem c6_exists_of_get_ok_witness :
    is_valid_path (Value.obj [("a", Value.null)]) "a" = Except.ok true :=
  c6_exists_of_get_ok (Value.obj [("a", Value.null)]) "a" Value.null rfl

/-- C10: on document `{a: 1}` and path `"a.b"` the next segment is
applied to the non-mapping scalar `1`; only `KeyError` is caught, so
`is_valid_path` does not return a boolean — the `TypeError` propagates. -/
theorem c10_exists_not_total :
    find_path (Value.obj [("a", Value.int 1)]) "a.b" = Except.error PathError.typeError ∧
    is_valid_path (Value.obj [("a", Value.int 1)]) "a.b" =
      Except.error PathError.typeError :=
  ⟨rfl, rfl⟩

end VW

/-! ## C3: the admission gate -/

namespace VW

/-- C3: with a record for `topic` holding a truthy pending id and a
timestamp `t`, the admission check returns `True` (skip the submission)
and leaves the ledger alone whenever invoked within 3 minutes of `t`,
and pops the stale id and returns `False` (submission permitted)
whenever invoked more than 3 minutes after `t`. -/
theorem c3_admission_gate (rs : Requests) (topic : String) (r : RequestRecord) (t : Int)
    (unknown_offset : Int)
    (hrec : lookupKey rs.records topic = some r)
    (hid : idTruthy r.id = true)
    (hts : r.timestamp = some t) :
    (∀ now, now ≤ t + 180 → in_progress rs topic now unknown_offset = (true, rs)) ∧
    (∀ now, t + 180 < now →
      in_progress rs topic now unknown_offset =
        (false, { rs with records := setKey rs.records topic { r with id := none } })) := by
  constructor
  · intro now hnow
    simp only [in_progress, hrec, hid, if_true, hts, Option.getD_some]
    rw [if_neg (by omega)]
  · intro now hnow
    simp only [in_progress, hrec, hid, if_true, hts, Option.getD_some]
    rw [if_pos (by omega)]

/-- Witness for C3 at a concrete ledger: a pending id stamped at time 0,
queried at 100 seconds (skip) and at 200 seconds (pop and permit). -/
theorem c3_admission_gate_witness :
    in_progress
        { records := [("lock", { status := "", timestamp := some 0, id := some 1 })],
          remaining := -1, latest := "", state := "" } "lock" 100 0 =
      (true,
        { records := [("lock", { status := "", timestamp := some 0, id := some 1 })],
          remaining := -1, latest := "", state := "" }) ∧
    in_progress
        { records := [("lock", { status := "", timestamp := some 0, id := some 1 })],
          remaining := -1, latest := "", state := "" } "lock" 200 0 =
      (false,
        { records := [("lock", { status := "", timestamp := some 0, id := none })],
          remaining := -1, latest := "", state := "" }) := by
  constructor
  · exact (c3_admission_gate
      { records := [("lock", { status := "", timestamp := some 0, id := some 1 })],
        remaining := -1, latest := "", state := "" } "lock"
      { status := "", timestamp := some 0, id := some 1 } 0 0 rfl rfl rfl).1 100 (by omega)
  · exact (c3_admission_gate
      { records := [("lock", { status := "", timestamp := some 0, id := some 1 })],
        remaining := -1, latest := "", state := "" } "lock"
      { status := "", timestamp := some 0, id := some 1 } 0 0 rfl rfl rfl).2 200 (by omega)

end VW

/-! ## C4: the throttle short-circuit -/

namespace VW

/-- C4: a truthy submission response whose `state` is `"Throttled"` never
invokes the polling loop, does not raise, and leaves the topic's request
record with status `"Throttled"`. -/
theorem c4_throttle_short_circuit (rs : Requests) (topic : String) (resp : Response)
    (now : Int) (g : Int → Nat → Except Unit String)
    (h : resp.state = some "Throttled") :
    (handle_response rs topic (some resp) now g).polled = false ∧
    (handle_response rs topic (some resp) now g).raised = false ∧
    lookupKey (handle_response rs topic (some resp) now g).rs.records topic =
      some { status := "Throttled", timestamp := some now, id := none } := by
  refine ⟨?_, ?_, ?_⟩ <;>
    simp [handle_response, h, lookupKey_setKey_self]

/-- Witness for C4 at a concrete throttled response. -/
theorem c4_throttle_short_circuit_witness :
    (handle_response (initialRequests 0) "climatisation"
        (some { rate_limit_remaining := some 3, state := some "Throttled", id := some 9 }) 0
        (fun _ _ => (Except.ok "In Progress" : Except Unit String))).polled = false ∧
    (handle_response (initialRequests 0) "climatisation"
        (some { rate_limit_remaining := some 3, state := some "Throttled", id := some 9 }) 0
        (fun _ _ => (Except.ok "In Progress" : Except Unit String))).raised = false ∧
    lookupKey (handle_response (initialRequests 0) "climatisation"
        (some { rate_limit_remaining := some 3, state := some "Throttled", id := some 9 }) 0
        (fun _ _ => (Except.ok "In Progress" : Except Unit String))).rs.records "climatisation" =
      some { status := "Throttled", timestamp := some 0, id := none } :=
  c4_throttle_short_circuit (initialRequests 0) "climatisation"
    { rate_limit_remaining := some 3, state := some "Throttled", id := some 9 } 0
    (fun _ _ => (Except.ok "In Progress" : Except Unit String)) rfl

end VW

/-! ## Frame lemmas for `handle_response` and `in_progress` -/

namespace VW

theorem handle_response_some_raised (rs : Requests) (topic : String) (resp : Response)
    (now : Int) (g : Int → Nat → Except Unit String) :
    (handle_response rs topic (some resp) now g).raised = false := by
  by_cases hst : resp.state = some "Throttled" <;> simp [handle_response, hst]

theorem handle_response_some_lookup_self (rs : Requests) (topic : String) (resp : Response)
    (now : Int) (g : Int → Nat → Except Unit String) :
    lookupKey (handle_response rs topic (some resp) now g).rs.records topic =
      some { status :=
               if resp.state = some "Throttled" then "Throttled"
               else pollStatus g (resp.id.getD 0),
             timestamp := some now, id := none } := by
  by_cases hst : resp.state = some "Throttled" <;>
    simp [handle_response, hst, lookupKey_setKey_self]

theorem handle_response_some_lookup_ne (rs : Requests) (topic k : String) (resp : Response)
    (now : Int) (g : Int → Nat → Except Unit String) (h : k ≠ topic) :
    lookupKey (handle_response rs topic (some resp) now g).rs.records k =
      lookupKey rs.records k := by
  by_cases hst : resp.state = some "Throttled" <;>
  by_cases hrl : resp.rate_limit_remaining.getD (-1) = -1 <;>
    simp [handle_response, hst, hrl, lookupKey_setKey_ne _ _ _ _ h]

theorem in_progress_false_frame (rs : Requests) (topic : String) (now off : Int)
    (h : (in_progress rs topic now off).1 = false) :
    (in_progress rs topic now off).2 = rs ∨
    ∃ r, lookupKey rs.records topic = some r ∧
      (in_progress rs topic now off).2 =
        { rs with records := setKey rs.records topic { r with id := none } } := by
  cases hrec : lookupKey rs.records topic with
  | none => left; simp [in_progress, hrec]
  | some r =>
    cases hid : idTruthy r.id with
    | false => left; simp [in_progress, hrec, hid]
    | true =>
      by_cases hts : r.timestamp.getD (now - off * 60) + 180 < now
      · right
        exact ⟨r, rfl, by simp [in_progress, hrec, hid, hts]⟩
      · exfalso
        have htrue : (in_progress rs topic now off).1 = true := by
          simp [in_progress, hrec, hid, hts]
        rw [htrue] at h
        exact Bool.noConfusion h

end VW

/-! ## C5: failing control actions and the caller-visible outcome -/

namespace VW

/-- C5, as stated, is false: `set_lock` with a truthy submission response
whose polling ends in the failing terminal status `"Failed"` returns the
success value `True` to the caller — the failure is only recorded in the
ledger's `access` record. -/
theorem c5_control_action_counterexample :
    (set_lock (initialRequests 0) true "lock" 0
        (Except.ok (some { rate_limit_remaining := none, state := none, id := some 5 }))
        (fun _ _ => (Except.ok "Failed" : Except Unit String))).result = CallResult.ret true ∧
    lookupKey (set_lock (initialRequests 0) true "lock" 0
        (Except.ok (some { rate_limit_remaining := none, state := none, id := some 5 }))
        (fun _ _ => (Except.ok "Failed" : Except Unit String))).rs.records "access" =
      some { status := "Failed", timestamp := some 0, id := none } :=
  ⟨rfl, rfl⟩

/-- C5 amended: an unsupported action, a raising submission call or a
falsy submission response all end `set_lock` by raising; but a truthy
submission response makes it return `True` regardless of the terminal
polling status, which is only recorded in the ledger. -/
theorem c5_control_action_failure (rs : Requests) (action : String) (now : Int)
    (resp : Response) (g : Int → Nat → Except Unit String)
    (hprog : (in_progress rs "lock" now (-5)).1 = false)
    (haction : action = "lock" ∨ action = "unlock") :
    (∀ submit, (set_lock rs false action now submit g).result = CallResult.raised) ∧
    (set_lock rs true action now (Except.error ()) g).result = CallResult.raised ∧
    (set_lock rs true action now (Except.ok none) g).result = CallResult.raised ∧
    (set_lock rs true action now (Except.ok (some resp)) g).result = CallResult.ret true := by
  rcases hres : in_progress rs "lock" now (-5) with ⟨b, rs1⟩
  rw [hres] at hprog
  simp only at hprog
  subst hprog
  rcases haction with ha | ha <;> subst ha
  · refine ⟨?_, ?_, ?_, ?_⟩
    · intro submit; simp [set_lock]
    · simp [set_lock, hres]
    · simp [set_lock, hres, handle_response]
    · simp [set_lock, hres, handle_response_some_raised]
  · refine ⟨?_, ?_, ?_, ?_⟩
    · intro submit; simp [set_lock]
    · simp [set_lock, hres]
    · simp [set_lock, hres, handle_response]
    · simp [set_lock, hres, handle_response_some_raised]

/-- Witness for C5 amended at a concrete ledger, response and oracle. -/
theorem c5_control_action_failure_witness :
    (set_lock (initialRequests 0) false "lock" 0 (Except.ok none)
        (fun _ _ => (Except.ok "Successful" : Except Unit String))).result =
      CallResult.raised ∧
    (set_lock (initialRequests 0) true "lock" 0 (Except.error ())
        (fun _ _ => (Except.ok "Successful" : Except Unit String))).result =
      CallResult.raised ∧
    (set_lock (initialRequests 0) true "lock" 0 (Except.ok none)
        (fun _ _ => (Except.ok "Successful" : Except Unit String))).result =
      CallResult.raised ∧
    (set_lock (initialRequests 0) true "lock" 0
        (Except.ok (some { rate_limit_remaining := none, state := none, id := some 5 }))
        (fun _ _ => (Except.ok "Successful" : Except Unit String))).result =
      CallResult.ret true := by
  have h := c5_control_action_failure (initialRequests 0) "lock" 0
    { rate_limit_remaining := none, state := none, id := some 5 }
    (fun _ _ => (Except.ok "Successful" : Except Unit String)) rfl (Or.inl rfl)
  exact ⟨h.1 (Except.ok none), h.2.1, h.2.2.1, h.2.2.2⟩

end VW

/-! ## C9: which ledger record a completed lock action lands in -/

namespace VW

/-- C9, as stated, is false on one point: when the lock record held a
stale pending id, the admission check pops that id during the same
successful `set_lock` call, so the record under `"lock"` is not left
byte-for-byte unchanged. -/
theorem c9_lock_ledger_counterexample :
    (set_lock
        { records := [("lock", { status := "In Progress", timestamp := some 0, id := some 7 })],
          remaining := -1, latest := "", state := "" } true "lock" 200
        (Except.ok (some { rate_limit_remaining := none, state := none, id := some 5 }))
        (fun _ _ => (Except.ok "Successful" : Except Unit String))).result =
      CallResult.ret true ∧
    ¬ lookupKey (set_lock
        { records := [("lock", { status := "In Progress", timestamp := some 0, id := some 7 })],
          remaining := -1, latest := "", state := "" } true "lock" 200
        (Except.ok (some { rate_limit_remaining := none, state := none, id := some 5 }))
        (fun _ _ => (Except.ok "Successful" : Except Unit String))).rs.records "lock" =
      lookupKey
        ({ records := [("lock", { status := "In Progress", timestamp := some 0, id := some 7 })],
           remaining := -1, latest := "", state := "" } : Requests).records "lock" := by
  constructor
  · rfl
  · decide

/-- C9 amended: a `set_lock` that proceeds through submission records the
terminal status under `"access"`; the `"lock"` record keeps its status —
so `lock_action_status` never reflects the completed action — and is
unchanged except that a stale pending id may have been popped by the
admission check, so `_in_progress("lock")` never sees the submission's
pending id. -/
theorem c9_lock_ledger_frame (rs : Requests) (now : Int) (resp : Response)
    (g : Int → Nat → Except Unit String)
    (hprog : (in_progress rs "lock" now (-5)).1 = false) :
    lookupKey (set_lock rs true "lock" now (Except.ok (some resp)) g).rs.records "access" =
      some { status :=
               if resp.state = some "Throttled" then "Throttled"
               else pollStatus g (resp.id.getD 0),
             timestamp := some now, id := none } ∧
    lock_action_status (set_lock rs true "lock" now (Except.ok (some resp)) g).rs =
      lock_action_status rs ∧
    (lookupKey (set_lock rs true "lock" now (Except.ok (some resp)) g).rs.records "lock" =
        lookupKey rs.records "lock" ∨
      ∃ r, lookupKey rs.records "lock" = some r ∧
        lookupKey (set_lock rs true "lock" now (Except.ok (some resp)) g).rs.records "lock" =
          some { r with id := none }) := by
  have hframe := in_progress_false_frame rs "lock" now (-5) hprog
  rcases hres : in_progress rs "lock" now (-5) with ⟨b, rs1⟩
  rw [hres] at hprog hframe
  simp only at hprog hframe
  subst hprog
  have hout : (set_lock rs true "lock" now (Except.ok (some resp)) g).rs =
      (handle_response { rs1 with latest := "Lock" } "access" (some resp) now g).rs := by
    simp [set_lock, hres, handle_response_some_raised]
  have hlockNe : ("lock" : String) ≠ "access" := by decide
  have hlock : lookupKey (set_lock rs true "lock" now (Except.ok (some resp)) g).rs.records
      "lock" = lookupKey rs1.records "lock" := by
    rw [hout, handle_response_some_lookup_ne _ _ _ _ _ _ hlockNe]
  refine ⟨?_, ?_, ?_⟩
  · rw [hout]
    exact handle_response_some_lookup_self _ _ _ _ _
  · rcases hframe with heq | ⟨r, hr, heq⟩
    · rw [lock_action_status, hlock, heq, lock_action_status]
    · rw [lock_action_status, hlock, heq, lock_action_status, hr]
      simp [lookupKey_setKey_self]
  · rcases hframe with heq | ⟨r, hr, heq⟩
    · left; rw [hlock, heq]
    · right
      refine ⟨r, hr, ?_⟩
      rw [hlock, heq]
      simp [lookupKey_setKey_self]

/-- Witness for C9 amended at a concrete ledger with no pending lock id. -/
theorem c9_lock_ledger_frame_witness :
    lookupKey (set_lock (initialRequests 0) true "lock" 0
        (Except.ok (some { rate_limit_remaining := none, state := none, id := some 5 }))
        (fun _ _ => (Except.ok "Successful" : Except Unit String))).rs.records "access" =
      some { status :=
               if (none : Option String) = some "Throttled" then "Throttled"
               else pollStatus (fun _ _ => (Except.ok "Successful" : Except Unit String)) 5,
             timestamp := some 0, id := none } ∧
    lock_action_status (set_lock (initialRequests 0) true "lock" 0
        (Except.ok (some { rate_limit_remaining := none, state := none, id := some 5 }))
        (fun _ _ => (Except.ok "Successful" : Except Unit String))).rs =
      lock_action_status (initialRequests 0) := by
  have h := c9_lock_ledger_frame (initialRequests 0) 0
    { rate_limit_remaining := none, state := none, id := some 5 }
    (fun _ _ => (Except.ok "Successful" : Except Unit String)) rfl
  exact ⟨h.1, h.2.1⟩

end VW

/-! ## C7: climatisation temperature validation -/

namespace VW

/-- C7: with electric or auxiliary climatisation supported,
`set_climatisation_temp` raises an invalid-argument error for 31 and for
15 without reaching submission, proceeds through to submission for 20,
and accepts exactly the range `[15.5, 30]`. -/
theorem c7_clim_temp_validation (cwep : Bool) :
    set_climatisation_temp true cwep 31 = ClimTempOutcome.raisedInvalidTemp ∧
    set_climatisation_temp true cwep 15 = ClimTempOutcome.raisedInvalidTemp ∧
    set_climatisation_temp true cwep 20 = ClimTempOutcome.submitted 20 cwep ∧
    ∀ t : Rat, set_climatisation_temp true cwep t = ClimTempOutcome.submitted t cwep ↔
      (15.5 ≤ t ∧ t ≤ 30) := by
  refine ⟨?_, ?_, ?_, ?_⟩
  · norm_num [set_climatisation_temp]
  · norm_num [set_climatisation_temp]
  · norm_num [set_climatisation_temp]
  · intro t
    constructor
    · intro h
      by_cases hc : (15.5 : Rat) ≤ t ∧ t ≤ 30
      · exact hc
      · exfalso
        simp [set_climatisation_temp, hc] at h
    · intro hc
      simp [set_climatisation_temp, hc]

end VW

/-! ## C8: overwrite semantics of repeated discovery -/

namespace VW

theorem containsKey_discoverStep (s : List (String × ServiceInfo))
    (item : String × CapabilityEntry) (k : String) :
    containsKey (discoverStep s item) k = containsKey s k := by
  by_cases h1 : containsKey s item.1 = true
  · cases hid : item.2.id with
    | none => simp [discoverStep, h1, hid]
    | some name =>
      cases hrec : lookupKey s name with
      | none => simp [discoverStep, h1, hid, hrec]
      | some old =>
        have hc : containsKey s name = true := by simp [containsKey, hrec]
        simp only [discoverStep, h1, if_true, hid, hrec]
        exact containsKey_setKey s name k _ hc
  · have h1f : containsKey s item.1 = false := by
      cases hb : containsKey s item.1
      · rfl
      · exact absurd hb h1
    simp [discoverStep, h1f]

theorem containsKey_discover (caps : List (String × CapabilityEntry))
    (s : List (String × ServiceInfo)) (k : String) :
    containsKey (discover s caps) k = containsKey s k := by
  induction caps generalizing s with
  | nil => rfl
  | cons c rest ih =>
    show containsKey (discover (discoverStep s c) rest) k = containsKey s k
    rw [ih, containsKey_discoverStep]

/-- C8: after a first discovery (whatever it recorded, here: the service
active), a second discovery whose listing carries a disabled entry for
the same service overwrites the `active` flag, and the service is
reported inactive. -/
theorem c8_discover_overwrite (s0 : List (String × ServiceInfo))
    (l1 : List (String × CapabilityEntry)) (name : String) (cap : CapabilityEntry)
    (hk : containsKey s0 name = true)
    (_hactive : isActive (discover s0 l1) name = true)
    (hid : cap.id = some name)
    (hdis : cap.isEnabled = false) :
    isActive (discover (discover s0 l1) [(name, cap)]) name = false := by
  have hk1 : containsKey (discover s0 l1) name = true := by
    rw [containsKey_discover]
    exact hk
  show isActive (discoverStep (discover s0 l1) (name, cap)) name = false
  cases hrec : lookupKey (discover s0 l1) name with
  | none =>
    rw [containsKey, hrec] at hk1
    cases hk1
  | some old =>
    simp only [discoverStep, hk1, if_true, hid, hrec]
    unfold isActive
    rw [lookupKey_setKey_self]
    simp [updateInfo, capData, hdis]

/-- Witness for C8: an `access` service enabled by the first listing and
disabled by the second. -/
theorem c8_discover_overwrite_witness :
    isActive
      (discover
        (discover
          [("access",
            { active := some false, expiration := none, operations := none,
              parameters := none })]
          [("access",
            { id := some "access", isEnabled := true, status := none,
              expirationDate := none, operations := [], parameters := [] })])
        [("access",
          { id := some "access", isEnabled := false, status := some "disabled",
            expirationDate := none, operations := [], parameters := [] })])
      "access" = false :=
  c8_discover_overwrite
    [("access",
      { active := some false, expiration := none, operations := none, parameters := none })]
    [("access",
      { id := some "access", isEnabled := true, status := none, expirationDate := none,
        operations := [], parameters := [] })]
    "access"
    { id := some "access", isEnabled := false, status := some "disabled",
      expirationDate := none, operations := [], parameters := [] }
    (by decide) (by decide) rfl rfl

end VW

/-! ## C2: update's fetches merge independently -/

namespace VW

/-- C2: within `update`'s gathered batch, a raising fetch leaves the
state document exactly as a no-data reply would — the other fetches
still complete and merge their own results — and the batch's document is
the independent composition of the four per-fetch merges; the update
cycle's final document extends the batch's document at most by the
separately fetched service status. -/
theorem c2_update_fetch_independence (states : Doc) (pk tp : Bool) (f : FetchResults)
    (hact : isDeactivated states = false) :
    (gatherFetches states pk tp
        { selective := Except.error (), vehicleData := f.vehicleData, parking := f.parking,
          tripLast := f.tripLast, serviceStatus := f.serviceStatus }).1 =
      (gatherFetches states pk tp
        { selective := Except.ok none, vehicleData := f.vehicleData, parking := f.parking,
          tripLast := f.tripLast, serviceStatus := f.serviceStatus }).1 ∧
    (gatherFetches states pk tp
        { selective := f.selective, vehicleData := Except.error (), parking := f.parking,
          tripLast := f.tripLast, serviceStatus := f.serviceStatus }).1 =
      (gatherFetches states pk tp
        { selective := f.selective, vehicleData := Except.ok none, parking := f.parking,
          tripLast := f.tripLast, serviceStatus := f.serviceStatus }).1 ∧
    (gatherFetches states pk tp
        { selective := f.selective, vehicleData := f.vehicleData, parking := Except.error (),
          tripLast := f.tripLast, serviceStatus := f.serviceStatus }).1 =
      (gatherFetches states pk tp
        { selective := f.selective, vehicleData := f.vehicleData, parking := Except.ok none,
          tripLast := f.tripLast, serviceStatus := f.serviceStatus }).1 ∧
    (gatherFetches states pk tp
        { selective := f.selective, vehicleData := f.vehicleData, parking := f.parking,
          tripLast := Except.error (), serviceStatus := f.serviceStatus }).1 =
      (gatherFetches states pk tp
        { selective := f.selective, vehicleData := f.vehicleData, parking := f.parking,
          tripLast := Except.ok none, serviceStatus := f.serviceStatus }).1 ∧
    (gatherFetches states pk tp f).1 =
      (applyFetch (applyFetch (applyFetch (applyFetch states f.selective).1
        f.vehicleData).1 (if pk then f.parking else Except.ok none)).1
        (if tp then f.tripLast else Except.ok none)).1 ∧
    ((update states pk tp f).states = (gatherFetches states pk tp f).1 ∨
      ∃ v, f.serviceStatus = Except.ok (some v) ∧
        (update states pk tp f).states =
          setKey (gatherFetches states pk tp f).1 SERVICE_STATUS v) := by
  refine ⟨rfl, rfl, ?_, ?_, ?_, ?_⟩
  · cases pk <;> rfl
  · cases tp <;> rfl
  · cases pk <;> cases tp <;> rfl
  · by_cases h2 : (gatherFetches states pk tp f).2 = true
    · left
      simp [update, hact, h2]
    · have h2f : (gatherFetches states pk tp f).2 = false := by
        cases hb : (gatherFetches states pk tp f).2
        · rfl
        · exact absurd hb h2
      cases hss : f.serviceStatus with
      | error e =>
        left
        simp [update, hact, h2f, hss]
      | ok o =>
        cases o with
        | none =>
          left
          simp [update, hact, h2f, hss]
        | some v =>
          right
          exact ⟨v, rfl, by simp [update, hact, h2f, hss]⟩

/-- Witness for C2 on an empty state document and concrete replies. -/
theorem c2_update_fetch_independence_witness :
    (gatherFetches [] true true
        { selective := Except.error (), vehicleData := Except.ok none,
          parking := Except.ok none, tripLast := Except.ok none,
          serviceStatus := Except.ok none }).1 =
      (gatherFetches [] true true
        { selective := Except.ok none, vehicleData := Except.ok none,
          parking := Except.ok none, tripLast := Except.ok none,
          serviceStatus := Except.ok none }).1 ∧
    (gatherFetches [] true true
        { selective := Except.ok (some [("access", Value.obj [])]),
          vehicleData := Except.error (), parking := Except.ok none,
          tripLast := Except.ok none, serviceStatus := Except.ok none }).1 =
      (gatherFetches [] true true
        { selective := Except.ok (some [("access", Value.obj [])]),
          vehicleData := Except.ok none, parking := Except.ok none,
          tripLast := Except.ok none, serviceStatus := Except.ok none }).1 ∧
    (gatherFetches [] true true
        { selective := Except.ok (some [("access", Value.obj [])]),
          vehicleData := Except.ok none, parking := Except.error (),
          tripLast := Except.ok none, serviceStatus := Except.ok none }).1 =
      (gatherFetches [] true true
        { selective := Except.ok (some [("access", Value.obj [])]),
          vehicleData := Except.ok none, parking := Except.ok none,
          tripLast := Except.ok none, serviceStatus := Except.ok none }).1 ∧
    (gatherFetches [] true true
        { selective := Except.ok (some [("access", Value.obj [])]),
          vehicleData := Except.ok none, parking := Except.ok none,
          tripLast := Except.error (), serviceStatus := Except.ok none }).1 =
      (gatherFetches [] true true
        { selective := Except.ok (some [("access", Value.obj [])]),
          vehicleData := Except.ok none, parking := Except.ok none,
          tripLast := Except.ok none, serviceStatus := Except.ok none }).1 ∧
    (gatherFetches [] true true c2_fetches).1 =
      (applyFetch (applyFetch (applyFetch (applyFetch [] c2_fetches.selective).1
        c2_fetches.vehicleData).1 (if true then c2_fetches.parking else Except.ok none)).1
        (if true then c2_fetches.tripLast else Except.ok none)).1 ∧
    ((update [] true true c2_fetches).states = (gatherFetches [] true true c2_fetches).1 ∨
      ∃ v, c2_fetches.serviceStatus = Except.ok (some v) ∧
        (update [] true true c2_fetches).states =
          setKey (gatherFetches [] true true c2_fetches).1 SERVICE_STATUS v) :=
  c2_update_fetch_independence [] true true c2_fetches rfl

end VW

namespace VW

example : find_path (Value.obj [("a", Value.int 1)]) "a" = Except.ok (Value.int 1) := rfl
example : find_path (Value.obj [("a", Value.int 1)]) "" =
    Except.ok (Value.obj [("a", Value.int 1)]) := rfl
example : find_path (Value.obj [("a", Value.null)]) "a" = Except.ok Value.null := rfl
example : find_path (Value.obj [("a", Value.int 1)]) "b" =
    Except.error (PathError.keyError "b") := rfl
example : find_path (Value.obj [("a", Value.obj [("b", Value.int 1)])]) "a.b" =
    Except.ok (Value.int 1) := rfl
example : find_path (Value.obj [("a", Value.obj [("b", Value.int 1)])]) "a.c" =
    Except.error (PathError.keyError "c") := rfl
example : find_path (Value.obj [("a", Value.int 1)]) "a.b" =
    Except.error PathError.typeError := rfl
example : is_valid_path (Value.obj [("a", Value.int 1)]) "a" = Except.ok true := rfl
example : is_valid_path (Value.obj [("a", Value.int 1)]) "b" = Except.ok false := rfl

end VW
